import Mathlib

/-!
Shallow embedding of the customer-ledger application in `src/app.py`:
the money parser/quantizer (`money`, lines 38-43), the date normalizer
(`parse_date`, lines 48-55), the balance calculators
(`calc_year_balance` lines 145-149, `calc_total_balance` lines 151-158),
the report composer and export entry points (lines 387-487), and the two
dialog save paths (lines 234-246 and 339-349).

Monetary values are modelled as exact rationals.  Values read back from
the store are real numbers (the source stores `float(value)`; `str` of a
float is the shortest round-tripping representation, so re-reading a
two-decimal value through `money` recovers it exactly for every magnitude
this model quantifies over).
-/

/-- Whitespace characters removed by Python `str.strip` (ASCII set; exotic
Unicode whitespace is not modelled). -/
def isPySpace (c : Char) : Bool :=
  c = ' ' || c = '\t' || c = '\n' || c = '\r' || c = '\x0b' || c = '\x0c'

/-- Python `str.strip`: drop leading and trailing whitespace. -/
def pyStripL (l : List Char) : List Char :=
  ((l.dropWhile isPySpace).reverse.dropWhile isPySpace).reverse

/-- Numeric value of a digit character. -/
def dv (c : Char) : Nat := c.toNat - 48

/-- Value of a digit run, most significant first. -/
def natOfDigits (l : List Char) : Nat := l.foldl (fun a c => 10 * a + dv c) 0

/-- Result of Python `Decimal` construction as far as this app can observe:
a finite value or a quiet NaN.  `sNaN` and `Infinity` parse in CPython but
raise `InvalidOperation` at the subsequent `quantize`, which `money`
catches, so they behave exactly like unparsable input and are modelled as
such. -/
inductive PyDec where
  | nan : PyDec
  | fin : ℚ → PyDec
deriving DecidableEq

/-- Optional sign prefix of a decimal numeric string. -/
def parseSign : List Char → ℤ × List Char
  | '+' :: r => (1, r)
  | '-' :: r => (-1, r)
  | l => (1, l)

/-- Quiet-NaN body of the decimal grammar: `nan` (case-insensitive)
followed by an optional digit payload. -/
def isNanBody (l : List Char) : Bool :=
  match l with
  | n1 :: a :: n2 :: rest =>
      (n1 = 'n' || n1 = 'N') && (a = 'a' || a = 'A') && (n2 = 'n' || n2 = 'N')
        && rest.all Char.isDigit
  | _ => false

/-- Significand and optional exponent after the sign and integer part have
been read: `mant` is the signed value of `intpart.fracpart`. -/
def finishExp (sg : ℤ) (ipv : Nat) (fp : List Char) (r : List Char) : Option PyDec :=
  let mant : ℚ := (sg : ℚ) * ((ipv * 10 ^ fp.length + natOfDigits fp : ℕ) : ℚ) / 10 ^ fp.length
  match r with
  | [] => some (PyDec.fin mant)
  | c :: r2 =>
    if c = 'e' || c = 'E' then
      let sr := parseSign r2
      let ed := sr.2.takeWhile Char.isDigit
      if ed.isEmpty || !(sr.2.dropWhile Char.isDigit).isEmpty then none
      else some (PyDec.fin (mant * (10 : ℚ) ^ (sr.1 * (natOfDigits ed : ℤ))))
    else none

/-- Core of the decimal numeric-string grammar accepted by `Decimal(str)`:
optional sign, digits with optional fractional part, optional exponent,
or a quiet NaN. -/
def parseDecCore (l : List Char) : Option PyDec :=
  let sr := parseSign l
  if isNanBody sr.2 then some PyDec.nan
  else
    let ip := sr.2.takeWhile Char.isDigit
    let r1 := sr.2.dropWhile Char.isDigit
    match r1 with
    | '.' :: r2 =>
        let fp := r2.takeWhile Char.isDigit
        let r3 := r2.dropWhile Char.isDigit
        if ip.isEmpty && fp.isEmpty then none
        else finishExp sr.1 (natOfDigits ip) fp r3
    | _ => if ip.isEmpty then none else finishExp sr.1 (natOfDigits ip) [] r1

/-- `Decimal(str(val))` on a string input: CPython strips surrounding
whitespace and ignores digit-group underscores before parsing. -/
def parseDec (s : String) : Option PyDec :=
  parseDecCore ((pyStripL s.data).filter (fun c => c ≠ '_'))

/-- Round a rational to the nearest integer, ties to the even neighbour
(the default `ROUND_HALF_EVEN` of Python's decimal context). -/
def roundHalfEven (q : ℚ) : ℤ :=
  if q - ⌊q⌋ < 1 / 2 then ⌊q⌋
  else if 1 / 2 < q - ⌊q⌋ then ⌊q⌋ + 1
  else if ⌊q⌋ % 2 = 0 then ⌊q⌋ else ⌊q⌋ + 1

/-- Round half away from zero (`ROUND_HALF_UP`), the mode the spec names. -/
def roundHalfUp (q : ℚ) : ℤ :=
  if 0 ≤ q then ⌊q + 1 / 2⌋ else -⌊-q + 1 / 2⌋

/-- `Decimal.quantize(Decimal("0.01"))` under the default context: round
half-even to two places; a result whose coefficient would exceed the
28-digit context precision raises `InvalidOperation`, which `money`
turns into `0.00`. -/
def quant2 (q : ℚ) : ℚ :=
  if (roundHalfEven (q * 100)).natAbs < 10 ^ 28 then ((roundHalfEven (q * 100) : ℤ) : ℚ) / 100
  else 0

/-- `money` (app.py lines 38-43) on a string input.  Note that a quiet NaN
sails through `quantize` without raising, so the except-branch does not
fire and the NaN is returned as-is. -/
def money (s : String) : PyDec :=
  match parseDec s with
  | some PyDec.nan => PyDec.nan
  | some (PyDec.fin q) => PyDec.fin (quant2 q)
  | none => PyDec.fin 0

/-- `money` applied to a numeric value read back from the store
(`money(p["amount"])`, `money(row.get("initial_debt", 0))`): `str` of the
stored float round-trips, so this is quantization of the exact value. -/
def moneyQ (q : ℚ) : ℚ := quant2 q

/-- A value that is an exact integer number of hundredths. -/
def Cents (q : ℚ) : Prop := ∃ k : ℤ, q = (k : ℚ) / 100

/-- A two-decimal value small enough for `quantize` under the default
28-digit context, i.e. what the write paths actually store. -/
def StoredMoney (q : ℚ) : Prop := ∃ k : ℤ, q = (k : ℚ) / 100 ∧ k.natAbs < 10 ^ 28

/-! ### Date normalizer (`parse_date`, app.py lines 48-55)

`datetime.strptime` compiles each format to a regex that must match the
whole input; the field patterns (CPython `_strptime`) are
`Y: \d\d\d\d`, `m: 1[0-2]|0[1-9]|[1-9]` and
`d: 3[0-1]|[1-2]\d|0[1-9]|[1-9]| [1-9]`, and `datetime` then rejects
year 0 and days beyond the month length.  Because every field is followed
by a literal separator or the end of the input, the regex alternation is
equivalent to the deterministic longest-match parser below. -/

/-- Exactly four digits, as `%Y` requires. -/
def parseYear4 : List Char → Option (Nat × List Char)
  | a :: b :: c :: d :: rest =>
    if a.isDigit && b.isDigit && c.isDigit && d.isDigit then
      some (1000 * dv a + 100 * dv b + 10 * dv c + dv d, rest)
    else none
  | _ => none

/-- A `%m`/`%d` field: one or two digits with value between 1 and `hi`;
`%d` additionally accepts a space-padded single digit. -/
def parseField (hi : Nat) (allowSpace : Bool) : List Char → Option (Nat × List Char)
  | a :: b :: rest =>
    if a.isDigit && b.isDigit && 1 ≤ 10 * dv a + dv b && 10 * dv a + dv b ≤ hi then
      some (10 * dv a + dv b, rest)
    else if a.isDigit && 1 ≤ dv a then some (dv a, b :: rest)
    else if allowSpace && a = ' ' && b.isDigit && 1 ≤ dv b then some (dv b, rest)
    else none
  | [a] => if a.isDigit && 1 ≤ dv a then some (dv a, []) else none
  | [] => none

def isLeap (y : Nat) : Bool := (y % 4 = 0 && y % 100 ≠ 0) || y % 400 = 0

def daysInMonth (y m : Nat) : Nat :=
  if m = 2 then (if isLeap y then 29 else 28)
  else if m = 4 || m = 6 || m = 9 || m = 11 then 30
  else 31

/-- The calendar dates `datetime.date` accepts. -/
def validDate (y m d : Nat) : Bool :=
  decide (1 ≤ y ∧ y ≤ 9999 ∧ 1 ≤ m ∧ m ≤ 12 ∧ 1 ≤ d ∧ d ≤ daysInMonth y m)

/-- Structural match of `%Y-%m-%d` style formats (year first). -/
def parseYMDraw (sep : Char) (cs : List Char) : Option (Nat × Nat × Nat) :=
  match parseYear4 cs with
  | some (y, c1 :: r1) =>
    if c1 = sep then
      match parseField 12 false r1 with
      | some (m, c2 :: r2) =>
        if c2 = sep then
          match parseField 31 true r2 with
          | some (d, []) => some (y, m, d)
          | _ => none
        else none
      | _ => none
    else none
  | _ => none

/-- Structural match of `%d.%m.%Y` style formats (day first). -/
def parseDMYraw (sep : Char) (cs : List Char) : Option (Nat × Nat × Nat) :=
  match parseField 31 true cs with
  | some (d, c1 :: r1) =>
    if c1 = sep then
      match parseField 12 false r1 with
      | some (m, c2 :: r2) =>
        if c2 = sep then
          match parseYear4 r2 with
          | some (y, []) => some (y, m, d)
          | _ => none
        else none
      | _ => none
    else none
  | _ => none

/-- The `datetime.date` constructor check: a structural match that is not
a real calendar date raises `ValueError`, i.e. yields no parse. -/
def checkValid (t : Nat × Nat × Nat) : Option (Nat × Nat × Nat) :=
  if validDate t.1 t.2.1 t.2.2 then some t else none

def tryYMD (sep : Char) (cs : List Char) : Option (Nat × Nat × Nat) :=
  (parseYMDraw sep cs).bind checkValid

def tryDMY (sep : Char) (cs : List Char) : Option (Nat × Nat × Nat) :=
  (parseDMYraw sep cs).bind checkValid

/-- Two-digit zero-padded rendering (values below 100). -/
def pad2 (n : Nat) : List Char := [Nat.digitChar (n / 10), Nat.digitChar (n % 10)]

/-- Four-digit zero-padded rendering (values below 10000). -/
def pad4 (n : Nat) : List Char :=
  [Nat.digitChar (n / 1000), Nat.digitChar (n / 100 % 10),
   Nat.digitChar (n / 10 % 10), Nat.digitChar (n % 10)]

/-- `date.isoformat()`: canonical `YYYY-MM-DD`. -/
def renderIso (t : Nat × Nat × Nat) : String :=
  String.mk (pad4 t.1 ++ '-' :: pad2 t.2.1 ++ '-' :: pad2 t.2.2)

/-- `parse_date` (app.py lines 48-55): strip, then try the four formats in
their fixed order, returning the ISO rendering of the first success. -/
def parse_date (s : String) : Option String :=
  let cs := pyStripL s.data
  match tryYMD '-' cs with
  | some t => some (renderIso t)
  | none =>
    match tryDMY '.' cs with
    | some t => some (renderIso t)
    | none =>
      match tryDMY '/' cs with
      | some t => some (renderIso t)
      | none =>
        match tryDMY '-' cs with
        | some t => some (renderIso t)
        | none => none

/-- The spec's formulation of the same contract: the first of the four
patterns, in priority order, that parses into a valid calendar date wins. -/
def normalize_date_first_match (s : String) : Option String :=
  (([tryYMD '-', tryDMY '.', tryDMY '/', tryDMY '-'].findSome?
      (fun f => f (pyStripL s.data))).map renderIso)

/-! ### Store model and balance calculators -/

/-- Lexicographic comparison by code point, as Python compares strings. -/
def charsLe : List Char → List Char → Bool
  | c :: cs, d :: ds =>
    if c.toNat < d.toNat then true
    else if d.toNat < c.toNat then false
    else charsLe cs ds
  | [], _ => true
  | _, [] => false

def strLe (a b : String) : Bool := charsLe a.data b.data

/-- Stable insertion into a sorted list: a new element goes in front of
the first strictly-or-equally larger key it meets, so elements processed
earlier keep their relative position (Python `sorted` and the store's
`order by` are stable). -/
def orderedInsertBy {α : Type} (le : α → α → Bool) (a : α) : List α → List α
  | [] => [a]
  | b :: l => if le a b then a :: b :: l else b :: orderedInsertBy le a l

/-- Insertion sort with a boolean `le`. -/
def sortBy {α : Type} (le : α → α → Bool) : List α → List α
  | [] => []
  | a :: l => orderedInsertBy le a (sortBy le l)

/-- The distinct members of a list (Python `set`; the order in which the
duplicates are dropped is irrelevant once sorted). -/
def dedupKeepLast : List String → List String
  | [] => []
  | a :: l =>
    if (dedupKeepLast l).contains a then dedupKeepLast l else a :: dedupKeepLast l

structure AccountRow where
  customer : Nat
  year : String
  initial_debt : ℚ
deriving DecidableEq

structure PaymentRow where
  customer : Nat
  year : String
  pay_date : String
  amount : ℚ
  note : String
deriving DecidableEq

structure DBState where
  accounts : List AccountRow
  payments : List PaymentRow
deriving DecidableEq

/-- `db_get_initial_debt` (lines 91-95): `money` of the first matching
row's value, `money(0)` when no row exists. -/
def db_get_initial_debt (st : DBState) (cid : Nat) (y : String) : ℚ :=
  match st.accounts.filter (fun r => r.customer == cid && r.year == y) with
  | [] => moneyQ 0
  | r :: _ => moneyQ r.initial_debt

/-- Date order on payment rows. -/
def payLe (p q : PaymentRow) : Bool := strLe p.pay_date q.pay_date

/-- `db_list_payments` (lines 114-123): the customer's rows for the year,
ordered by `pay_date` ascending. -/
def db_list_payments (st : DBState) (cid : Nat) (y : String) : List PaymentRow :=
  sortBy payLe (st.payments.filter (fun p => p.customer == cid && p.year == y))

/-- `db_add_payment` (lines 125-132): insert a payment row. -/
def db_add_payment (st : DBState) (cid : Nat) (y pd : String) (amt : ℚ) (note : String) :
    DBState :=
  { st with payments := st.payments ++ [⟨cid, y, pd, amt, note⟩] }

/-- `calc_year_balance` (lines 145-149). -/
def calc_year_balance (st : DBState) (cid : Nat) (y : String) : ℚ :=
  db_get_initial_debt st cid y -
    ((db_list_payments st cid y).map (fun p => moneyQ p.amount)).sum

/-- The customer's rows of the `accounts` table. -/
def customer_account_rows (st : DBState) (cid : Nat) : List AccountRow :=
  st.accounts.filter (fun r => r.customer == cid)

/-- `calc_total_balance` (lines 151-158): the loop accumulator is written
as a sum over the same rows in the same order. -/
def calc_total_balance (st : DBState) (cid : Nat) : ℚ :=
  ((customer_account_rows st cid).map (fun r => calc_year_balance st cid r.year)).sum

/-- The years that have an AccountYear record for the customer. -/
def account_years (st : DBState) (cid : Nat) : List String :=
  (customer_account_rows st cid).map (fun r => r.year)

/-- The `accounts` table never holds two rows with the same
(customer, year) key: `db_set_initial_debt` writes through an upsert with
`on_conflict="customer_id,year"`. -/
def keys_unique (st : DBState) : Prop :=
  st.accounts.Pairwise (fun a b => a.customer ≠ b.customer ∨ a.year ≠ b.year)

/-! ### Report composer and exports (lines 387-487) -/

/-- Python `f"{i:02d}"`. -/
def fmt02 (n : Nat) : String := if n < 10 then "0" ++ toString n else toString n

/-- Python `f"{amt:.2f}"` on a two-decimal `Decimal` value. -/
def formatMoney2 (q : ℚ) : String :=
  let k := roundHalfEven (q * 100)
  (if k < 0 then "-" else "") ++ toString (k.natAbs / 100) ++ "." ++ fmt02 (k.natAbs % 100)

/-- The 43-character `=` rule of the per-year report. -/
def yearRule : String := String.mk (List.replicate 43 '=')

/-- The 43-character `-` rule of the per-year report. -/
def yearDashRule : String := String.mk (List.replicate 43 '-')

/-- One numbered payment line of a report. -/
def payment_line (i : Nat) (p : PaymentRow) : String :=
  fmt02 i ++ ". " ++ p.pay_date ++ "  |  " ++ formatMoney2 (moneyQ p.amount) ++
    " ден.  |  " ++ p.note

/-- `_compose_year_lines` (lines 387-415): the report lines plus
(total_paid, balance, init).  `sorted(pays, key=pay_date)` re-sorts the
already date-ordered rows. -/
def compose_year_lines (st : DBState) (cid : Nat) (y cname cphone today : String) :
    List String × ℚ × ℚ × ℚ :=
  let init := db_get_initial_debt st cid y
  let pays_sorted := sortBy payLe (db_list_payments st cid y)
  let total_paid := (pays_sorted.map (fun p => moneyQ p.amount)).sum
  let balance := init - total_paid
  let lines :=
    [yearRule,
     "   ИЗВЕШТАЈ ЗА МУШТЕРИЈА – ГОДИНА: " ++ y,
     yearRule,
     "Датум на извештај: " ++ today,
     "Муштерија : " ++ cname,
     "Телефон   : " ++ cphone,
     "",
     "Почетен долг: " ++ formatMoney2 init ++ " ден.",
     yearDashRule,
     "УПЛАТИ:"]
    ++ (if pays_sorted.isEmpty then ["Нема евидентирани уплати за оваа година."]
        else pays_sorted.enum.map (fun ip => payment_line (ip.1 + 1) ip.2))
    ++ [yearDashRule,
        "Вкупно уплатено: " ++ formatMoney2 total_paid ++ " ден.",
        "Преостанато салдо: " ++ formatMoney2 balance ++ " ден.",
        ""]
  (lines, total_paid, balance, init)

inductive ExportError where
  | missingYearData : ExportError
deriving DecidableEq

/-- The 60-character `=` rule of the summary report. -/
def bigRule : String := String.mk (List.replicate 60 '=')

/-- `sorted({row["year"] ...})`: the distinct AccountYear years, ascending. -/
def account_years_sorted (st : DBState) (cid : Nat) : List String :=
  sortBy strLe (dedupKeepLast (account_years st cid))

/-- `on_export_txt_all_years_one` (lines 429-471): a customer with no
AccountYear rows gets the warning and no report; otherwise the header, all
year sections, and the grand-totals block (each grand total accumulates
`money` of the per-year figure). -/
def on_export_txt_all_years_one (st : DBState) (cid : Nat) (cname cphone today : String) :
    Except ExportError (List String) :=
  let years := account_years_sorted st cid
  if years.isEmpty then Except.error ExportError.missingYearData
  else
    let header :=
      [bigRule,
       "         ЗБИРЕН ИЗВЕШТАЈ ЗА МУШТЕРИЈА (сите години)",
       bigRule,
       "Датум на извештај: " ++ today,
       "Муштерија : " ++ cname,
       "Телефон   : " ++ cphone,
       ""]
    let body := (years.map (fun y => (compose_year_lines st cid y cname cphone today).1)).flatten
    let gi := (years.map (fun y => moneyQ (compose_year_lines st cid y cname cphone today).2.2.2)).sum
    let gp := (years.map (fun y => moneyQ (compose_year_lines st cid y cname cphone today).2.1)).sum
    let gb := (years.map (fun y => moneyQ (compose_year_lines st cid y cname cphone today).2.2.1)).sum
    Except.ok (header ++ body ++
      [bigRule,
       "                  ВКУПНИ ЗБИРНИ ВРЕДНОСТИ",
       bigRule,
       "Вкупно почетни долгови (сите години): " ++ formatMoney2 gi ++ " ден.",
       "Вкупно уплатено (сите години):        " ++ formatMoney2 gp ++ " ден.",
       "Збирно преостанато салдо:             " ++ formatMoney2 gb ++ " ден.",
       bigRule,
       ""])

/-- Python `name.replace(" ", "_")`: with a one-character pattern this
replaces each occurrence independently. -/
def py_replace_space : List Char → List Char
  | [] => []
  | c :: cs => (if c = ' ' then '_' else c) :: py_replace_space cs

/-- The per-year export filename
`f"Izvestaj_{name.replace(' ','_')}_{y}.txt"` (lines 422 and 484). -/
def suggested_filename (cname y : String) : String :=
  "Izvestaj_" ++ String.mk (py_replace_space cname.data) ++ "_" ++ y ++ ".txt"

/-- `on_export_txt_each_year_file` (lines 473-487): same empty-years gate,
then one (filename, report lines) unit per AccountYear year. -/
def on_export_txt_each_year_file (st : DBState) (cid : Nat) (cname cphone today : String) :
    Except ExportError (List (String × List String)) :=
  let years := account_years_sorted st cid
  if years.isEmpty then Except.error ExportError.missingYearData
  else
    Except.ok (years.map (fun y =>
      (suggested_filename cname y, (compose_year_lines st cid y cname cphone today).1)))

/-! ### Dialog save paths -/

structure PaymentResult where
  pay_date : String
  amount : PyDec
  note : String
deriving DecidableEq

def pyStripS (s : String) : String := String.mk (pyStripL s.data)

/-- `PaymentDialog.on_save` (lines 234-246): an invalid date aborts with a
warning; the `try` around `money` is dead code because `money` never
raises, so whatever `money` returns becomes the saved amount. -/
def paymentDialog_on_save (dateStr amountStr noteStr : String) : Option PaymentResult :=
  match parse_date dateStr with
  | none => none
  | some ds => some ⟨ds, money amountStr, pyStripS noteStr⟩

/-- `CustomerDetail.on_save_initial` (lines 339-349): `money` cannot raise,
but the `val < 0` comparison raises `InvalidOperation` on a NaN, which the
`except` turns into a warning; otherwise a non-negative value is saved. -/
def customerDetail_on_save_initial (amountStr : String) : Option ℚ :=
  match money amountStr with
  | PyDec.nan => none
  | PyDec.fin q => if q < 0 then none else some q

/-! ### Sample stores used by the witnesses -/

/-- The spec's §8 scenario: initial debt 1000.00 and payments
+200.00, −50.00, +300.00 in 2024. -/
def sampleState : DBState :=
  ⟨[⟨1, "2024", 1000⟩],
   [⟨1, "2024", "2024-01-05", 200, ""⟩,
    ⟨1, "2024", "2024-03-01", -50, ""⟩,
    ⟨1, "2024", "2024-06-10", 300, ""⟩]⟩

/-- A store whose only AccountYear row belongs to another customer. -/
def noYearState : DBState :=
  ⟨[⟨2, "2024", 100⟩], [⟨1, "2024", "2024-01-05", 200, ""⟩]⟩

/-! ### Helper lemmas

Batteries marks the arithmetic of `Rat` irreducible; unsealing it lets
`decide` and `rfl` evaluate the embedded functions on concrete inputs. -/

unseal Rat.add Rat.mul Rat.sub Rat.inv Rat.ofScientific

theorem roundHalfEven_intCast (k : ℤ) : roundHalfEven (k : ℚ) = k := by
  simp [roundHalfEven]

theorem quant2_cents (q : ℚ) : Cents (quant2 q) := by
  unfold Cents quant2
  by_cases h : (roundHalfEven (q * 100)).natAbs < 10 ^ 28
  · exact ⟨roundHalfEven (q * 100), by rw [if_pos h]⟩
  · exact ⟨0, by rw [if_neg h]; norm_num⟩

theorem moneyQ_cents (q : ℚ) : Cents (moneyQ q) := quant2_cents q

theorem moneyQ_stored {q : ℚ} (h : StoredMoney q) : moneyQ q = q := by
  obtain ⟨k, hq, hk⟩ := h
  subst hq
  unfold moneyQ quant2
  rw [div_mul_cancel₀ (k : ℚ) (by norm_num), roundHalfEven_intCast, if_pos hk]

theorem cents_add {a b : ℚ} (ha : Cents a) (hb : Cents b) : Cents (a + b) := by
  obtain ⟨j, rfl⟩ := ha
  obtain ⟨k, rfl⟩ := hb
  exact ⟨j + k, by push_cast; ring⟩

theorem cents_sub {a b : ℚ} (ha : Cents a) (hb : Cents b) : Cents (a - b) := by
  obtain ⟨j, rfl⟩ := ha
  obtain ⟨k, rfl⟩ := hb
  exact ⟨j - k, by push_cast; ring⟩

theorem cents_sum {l : List ℚ} (h : ∀ x ∈ l, Cents x) : Cents l.sum := by
  induction l with
  | nil => exact ⟨0, by norm_num⟩
  | cons a t ih =>
    rw [List.sum_cons]
    exact cents_add (h a (by simp)) (ih (fun x hx => h x (by simp [hx])))

theorem db_get_initial_debt_cents (st : DBState) (cid : Nat) (y : String) :
    Cents (db_get_initial_debt st cid y) := by
  unfold db_get_initial_debt
  split
  · exact moneyQ_cents 0
  · exact moneyQ_cents _

/-- C3: the claim says a malformed monetary input on a write path is
signaled as an `InvalidAmount` error and never defaulted to zero; the code
instead saves 0.00 silently — `money` swallows the parse failure, so the
dialogs' except-branches are dead code.  Evaluated at the failing input
`"abc"` on both write paths. -/
theorem write_path_silently_zeroes :
    paymentDialog_on_save ("2024-01-05") ("abc") ("") =
      some ⟨"2024-01-05", PyDec.fin 0, ""⟩ ∧
    customerDetail_on_save_initial ("abc") = some 0 := by
  constructor <;> decide

/-- C4, counterexample: `money` does not round half-up at the point of
input; on `"0.125"` it returns 0.12 (half-even), while half-up mandates
0.13. -/
theorem money_not_half_up :
    money ("0.125") = PyDec.fin ((12 : ℚ) / 100) ∧
    money ("0.125") ≠
      PyDec.fin (((roundHalfUp (((125 : ℚ) / 1000) * 100) : ℤ) : ℚ) / 100) := by
  constructor <;> decide

/-- C4, amended: every parsed finite monetary input is quantized to two
fraction digits at the point of input using round-half-to-even (falling
back to 0.00 when the result would overflow the 28-digit decimal
context), so the held value is always an integer number of hundredths. -/
theorem money_half_even_quantize : ∀ (s : String) (q : ℚ),
    parseDec s = some (PyDec.fin q) →
    money s = PyDec.fin (quant2 q) ∧
    Cents (quant2 q) ∧
    ((roundHalfEven (q * 100)).natAbs < 10 ^ 28 →
      quant2 q = ((roundHalfEven (q * 100) : ℤ) : ℚ) / 100) := by
  intro s q h
  refine ⟨by simp [money, h], quant2_cents q, fun hk => ?_⟩
  unfold quant2
  rw [if_pos hk]

theorem money_half_even_quantize_witness :
    money ("0.105") = PyDec.fin (quant2 ((105 : ℚ) / 1000)) :=
  (money_half_even_quantize ("0.105") ((105 : ℚ) / 1000) (by decide)).1

/-- C9, counterexample: `money` is not "0.00 for anything unparsable as a
number" — a quiet NaN input passes `quantize` unchanged, so `money "NaN"`
is NaN, which is no two-fraction-digit decimal at all. -/
theorem money_nan_counterexample :
    money ("NaN") = PyDec.nan ∧
    ¬ ∃ k : ℤ, money ("NaN") = PyDec.fin ((k : ℚ) / 100) := by
  refine ⟨by decide, ?_⟩
  rintro ⟨k, hk⟩
  rw [show money ("NaN") = PyDec.nan from by decide] at hk
  exact PyDec.noConfusion hk

/-- C9, amended: `money` is total — it never raises; it returns a value
quantized to hundredths for every non-NaN input, exactly 0.00 for any
input that does not parse as a decimal numeric string, and NaN (not 0.00)
precisely for quiet-NaN inputs. -/
theorem money_total_spec : ∀ s : String,
    (money s = PyDec.nan ∨ ∃ k : ℤ, money s = PyDec.fin ((k : ℚ) / 100)) ∧
    (parseDec s = none → money s = PyDec.fin 0) ∧
    (money s = PyDec.nan ↔ parseDec s = some PyDec.nan) := by
  intro s
  unfold money
  cases h : parseDec s with
  | none =>
    refine ⟨Or.inr ⟨0, by norm_num⟩, fun _ => rfl, by simp⟩
  | some pd =>
    cases pd with
    | nan => exact ⟨Or.inl rfl, by simp, by simp⟩
    | fin q =>
      refine ⟨Or.inr ?_, by simp, by simp⟩
      obtain ⟨k, hk⟩ := quant2_cents q
      exact ⟨k, by simp [hk]⟩

theorem money_total_spec_witness : money ("abc") = PyDec.fin 0 :=
  (money_total_spec ("abc")).2.1 (by decide)

/-- C10: every monetary figure the engine produces — year balance,
lifetime balance, and the per-year total-paid / balance / initial-debt
figures of the report composer — is an exact integer multiple of 0.01,
because each stored amount and initial debt passes through `money` before
any summation. -/
theorem engine_outputs_cents : ∀ (st : DBState) (cid : Nat) (y cname cphone today : String),
    Cents (calc_year_balance st cid y) ∧
    Cents (calc_total_balance st cid) ∧
    Cents ((compose_year_lines st cid y cname cphone today).2.1) ∧
    Cents ((compose_year_lines st cid y cname cphone today).2.2.1) ∧
    Cents ((compose_year_lines st cid y cname cphone today).2.2.2) := by
  intro st cid y cname cphone today
  have hsum : ∀ l : List PaymentRow, Cents ((l.map (fun p => moneyQ p.amount)).sum) := by
    intro l
    apply cents_sum
    intro x hx
    obtain ⟨p, _, rfl⟩ := List.mem_map.1 hx
    exact moneyQ_cents _
  have hyb : ∀ y, Cents (calc_year_balance st cid y) := fun y =>
    cents_sub (db_get_initial_debt_cents st cid y) (hsum _)
  refine ⟨hyb y, ?_, ?_, ?_, ?_⟩
  · apply cents_sum
    intro x hx
    obtain ⟨r, _, rfl⟩ := List.mem_map.1 hx
    exact hyb _
  · simp only [compose_year_lines]
    exact hsum _
  · simp only [compose_year_lines]
    exact cents_sub (db_get_initial_debt_cents st cid y) (hsum _)
  · simp only [compose_year_lines]
    exact db_get_initial_debt_cents st cid y

/-- C6: a customer with zero AccountYear records gets the
`MissingYearData` signal from both the summary export and the batch
export — generation stops before any report text is produced. -/
theorem export_missing_year_data : ∀ (st : DBState) (cid : Nat) (cname cphone today : String),
    customer_account_rows st cid = [] →
    on_export_txt_all_years_one st cid cname cphone today =
      Except.error ExportError.missingYearData ∧
    on_export_txt_each_year_file st cid cname cphone today =
      Except.error ExportError.missingYearData := by
  intro st cid cname cphone today h
  have hy : account_years_sorted st cid = [] := by
    simp [account_years_sorted, account_years, h, sortBy, dedupKeepLast]
  constructor
  · simp [on_export_txt_all_years_one, hy]
  · simp [on_export_txt_each_year_file, hy]

theorem export_missing_year_data_witness :
    on_export_txt_all_years_one noYearState 1 ("Ана") ("-") ("2026-10-12") =
      Except.error ExportError.missingYearData :=
  (export_missing_year_data noYearState 1 ("Ана") ("-") ("2026-10-12") (by decide)).1

theorem py_replace_space_map (l : List Char) :
    py_replace_space l = l.map (fun c => if c = ' ' then '_' else c) := by
  induction l with
  | nil => rfl
  | cons c cs ih => simp [py_replace_space, ih]

/-- C8, counterexample: the export filename does not replace every
non-alphanumeric, non-space character of the name with one fixed
placeholder — the names `"/"` and `"#"` pass through unchanged, so no
single placeholder character can describe the code's behaviour. -/
theorem filename_placeholder_counterexample :
    ¬ ∃ p : Char, ∀ cname y : String,
      (suggested_filename cname y).data =
        ("Izvestaj_" : String).data
          ++ cname.data.map (fun c => if c.isAlphanum || c = ' ' then c else p)
          ++ ("_" : String).data ++ y.data ++ (".txt" : String).data := by
  rintro ⟨p, h⟩
  have h1 : some '/' = some p := congrArg (fun l => l[9]?) (h ("/") ("2024"))
  have h2 : some '#' = some p := congrArg (fun l => l[9]?) (h ("#") ("2024"))
  exact absurd (Option.some.inj (h1.trans h2.symm)) (by decide)

/-- C8, amended: the batch-export filename is derived deterministically
from the customer name and the year; each space of the name is replaced
by an underscore and every other character — alphanumeric or not — is
kept unchanged. -/
theorem filename_space_underscore : ∀ cname y : String,
    suggested_filename cname y =
      "Izvestaj_" ++ String.mk (cname.data.map (fun c => if c = ' ' then '_' else c))
        ++ "_" ++ y ++ ".txt" := by
  intro cname y
  unfold suggested_filename
  rw [py_replace_space_map]

theorem orderedInsertBy_perm {α : Type} (le : α → α → Bool) (a : α) (l : List α) :
    List.Perm (orderedInsertBy le a l) (a :: l) := by
  induction l with
  | nil => exact List.Perm.refl _
  | cons b t ih =>
    unfold orderedInsertBy
    split
    · exact List.Perm.refl _
    · exact (List.Perm.cons b ih).trans (List.Perm.swap a b t)

theorem sortBy_perm {α : Type} (le : α → α → Bool) (l : List α) :
    List.Perm (sortBy le l) l := by
  induction l with
  | nil => exact List.Perm.refl _
  | cons a t ih =>
    exact (orderedInsertBy_perm le a (sortBy le t)).trans (List.Perm.cons a ih)

/-- C1: the year balance is the initial debt minus the exact decimal sum
of the stored payment amounts — summation is exact (no intermediate
rounding beyond the per-amount quantization the write path already
applied, which the `StoredMoney` hypothesis expresses), and an empty
payment list leaves the initial debt unchanged. -/
theorem year_balance_is_initial_minus_sum : ∀ (st : DBState) (cid : Nat) (y : String),
    (∀ p ∈ st.payments, StoredMoney p.amount) →
    (calc_year_balance st cid y =
      db_get_initial_debt st cid y -
        ((db_list_payments st cid y).map (fun p => p.amount)).sum) ∧
    (db_list_payments st cid y = [] →
      calc_year_balance st cid y = db_get_initial_debt st cid y) := by
  intro st cid y hst
  have hmem : ∀ p ∈ db_list_payments st cid y, p ∈ st.payments := by
    intro p hp
    unfold db_list_payments at hp
    have hp2 := (sortBy_perm payLe _).mem_iff.1 hp
    exact (List.mem_filter.1 hp2).1
  constructor
  · unfold calc_year_balance
    have hmap : (db_list_payments st cid y).map (fun p => moneyQ p.amount) =
        (db_list_payments st cid y).map (fun p => p.amount) :=
      List.map_congr_left (fun p hp => moneyQ_stored (hst p (hmem p hp)))
    rw [hmap]
  · intro h
    unfold calc_year_balance
    rw [h]
    simp

theorem year_balance_is_initial_minus_sum_witness :
    calc_year_balance sampleState 1 ("2024") = 550 := by
  have hst : ∀ p ∈ sampleState.payments, StoredMoney p.amount := by
    intro p hp
    simp only [sampleState, List.mem_cons, List.not_mem_nil, or_false] at hp
    rcases hp with rfl | rfl | rfl
    · exact ⟨20000, by norm_num, by decide⟩
    · exact ⟨-5000, by norm_num, by decide⟩
    · exact ⟨30000, by norm_num, by decide⟩
  have h := (year_balance_is_initial_minus_sum sampleState 1 ("2024") hst).1
  rw [h]
  decide

/-- C2: the lifetime balance is the sum of the year balance over exactly
the years holding an AccountYear record (a duplicate-free list, by the
upsert key), and inserting a payment for a year without an AccountYear
record leaves the customer's lifetime balance unchanged. -/
theorem lifetime_balance_years_with_record : ∀ (st : DBState) (cid : Nat),
    keys_unique st →
    (calc_total_balance st cid =
        ((account_years st cid).map (fun y => calc_year_balance st cid y)).sum ∧
      (account_years st cid).Nodup) ∧
    (∀ (y pd : String) (amt : ℚ) (note : String),
      y ∉ account_years st cid →
      calc_total_balance (db_add_payment st cid y pd amt note) cid =
        calc_total_balance st cid) := by
  intro st cid hu
  refine ⟨⟨?_, ?_⟩, ?_⟩
  · unfold calc_total_balance account_years
    rw [List.map_map]
    rfl
  · unfold account_years customer_account_rows
    have h1 : (st.accounts.filter (fun r => r.customer == cid)).Pairwise
        (fun a b => a.year ≠ b.year) := by
      refine List.Pairwise.imp_of_mem ?_ (hu.filter _)
      intro a b ha hb hr
      have ha2 := (List.mem_filter.1 ha).2
      have hb2 := (List.mem_filter.1 hb).2
      rw [beq_iff_eq] at ha2 hb2
      rcases hr with h | h
      · exact absurd (ha2.trans hb2.symm) h
      · exact h
    exact (List.pairwise_map).2 h1
  · intro y pd amt note hy
    unfold calc_total_balance
    apply congrArg List.sum
    apply List.map_congr_left
    intro r hr
    have hry : r.year ≠ y := by
      intro e
      exact hy (List.mem_map.2 ⟨r, hr, e⟩)
    have hpay : db_list_payments (db_add_payment st cid y pd amt note) cid r.year =
        db_list_payments st cid r.year := by
      unfold db_list_payments db_add_payment
      have hfil : (st.payments ++ [(⟨cid, y, pd, amt, note⟩ : PaymentRow)]).filter
          (fun p => p.customer == cid && p.year == r.year) =
          st.payments.filter (fun p => p.customer == cid && p.year == r.year) := by
        rw [List.filter_append]
        simp [Ne.symm hry]
      rw [hfil]
    unfold calc_year_balance
    rw [hpay]
    rfl

theorem lifetime_balance_years_with_record_witness :
    calc_total_balance (db_add_payment sampleState 1 ("2025") ("2025-01-01") 5 ("")) 1 =
      calc_total_balance sampleState 1 :=
  (lifetime_balance_years_with_record sampleState 1
      (by simp [keys_unique, sampleState])).2
    ("2025") ("2025-01-01") 5 ("") (by decide)

theorem digit_isDigit {r : Nat} (h : r < 10) : (Nat.digitChar r).isDigit = true := by
  interval_cases r <;> decide

theorem digit_dv {r : Nat} (h : r < 10) : dv (Nat.digitChar r) = r := by
  interval_cases r <;> decide

theorem digit_notSpace {r : Nat} (h : r < 10) : isPySpace (Nat.digitChar r) = false := by
  interval_cases r <;> decide

theorem daysInMonth_le31 (y m : Nat) : daysInMonth y m ≤ 31 := by
  unfold daysInMonth
  split
  · split <;> omega
  · split <;> omega

theorem parseYear4_pad4 (y : Nat) (hy : y ≤ 9999) (rest : List Char) :
    parseYear4 (pad4 y ++ rest) = some (y, rest) := by
  have h1 : y / 1000 < 10 := by omega
  have h2 : y / 100 % 10 < 10 := by omega
  have h3 : y / 10 % 10 < 10 := by omega
  have h4 : y % 10 < 10 := by omega
  have hv : 1000 * (y / 1000) + 100 * (y / 100 % 10) + 10 * (y / 10 % 10) + y % 10 = y := by
    omega
  simp only [pad4, List.cons_append, List.nil_append, parseYear4,
    digit_isDigit h1, digit_isDigit h2, digit_isDigit h3, digit_isDigit h4,
    digit_dv h1, digit_dv h2, digit_dv h3, digit_dv h4, Bool.true_and, if_true, hv]

theorem parseField_pad2 (hi n : Nat) (allow : Bool) (h1 : 1 ≤ n) (h2 : n ≤ hi)
    (h99 : n ≤ 99) (rest : List Char) :
    parseField hi allow (pad2 n ++ rest) = some (n, rest) := by
  have ha : n / 10 < 10 := by omega
  have hb : n % 10 < 10 := by omega
  have hv : 10 * (n / 10) + n % 10 = n := by omega
  simp only [pad2, List.cons_append, List.nil_append, parseField,
    digit_isDigit ha, digit_isDigit hb, digit_dv ha, digit_dv hb, Bool.true_and, hv]
  simp [h1, h2]

theorem tryYMD_render (y m d : Nat) (hv : validDate y m d = true) :
    tryYMD '-' (pad4 y ++ '-' :: pad2 m ++ '-' :: pad2 d) = some (y, m, d) := by
  have hp := of_decide_eq_true hv
  obtain ⟨hy1, hy2, hm1, hm2, hd1, hd2⟩ := hp
  have hd31 : d ≤ 31 := le_trans hd2 (daysInMonth_le31 y m)
  have e1 := parseYear4_pad4 y hy2 ('-' :: (pad2 m ++ '-' :: pad2 d))
  have e2 := parseField_pad2 12 m false hm1 hm2 (by omega) ('-' :: pad2 d)
  have e3 : parseField 31 true (pad2 d) = some (d, []) := by
    have h := parseField_pad2 31 d true hd1 hd31 (by omega) []
    simpa using h
  simp [tryYMD, parseYMDraw, e1, e2, e3, checkValid, hv]

theorem pyStripL_keep {a b : Char} {mid : List Char} (ha : isPySpace a = false)
    (hb : isPySpace b = false) : pyStripL (a :: (mid ++ [b])) = a :: (mid ++ [b]) := by
  unfold pyStripL
  simp [List.dropWhile_cons, ha, hb, List.reverse_append, List.reverse_cons,
    List.append_assoc]

theorem render_shape (y m d : Nat) :
    pad4 y ++ '-' :: pad2 m ++ '-' :: pad2 d =
      Nat.digitChar (y / 1000) ::
        ([Nat.digitChar (y / 100 % 10), Nat.digitChar (y / 10 % 10), Nat.digitChar (y % 10),
          '-', Nat.digitChar (m / 10), Nat.digitChar (m % 10), '-',
          Nat.digitChar (d / 10)] ++ [Nat.digitChar (d % 10)]) := by
  simp [pad4, pad2]

theorem pyStrip_render (y m d : Nat) (hy : y ≤ 9999) :
    pyStripL (pad4 y ++ '-' :: pad2 m ++ '-' :: pad2 d) =
      pad4 y ++ '-' :: pad2 m ++ '-' :: pad2 d := by
  rw [render_shape]
  exact pyStripL_keep (digit_notSpace (by omega)) (digit_notSpace (by omega))

theorem parse_date_render (y m d : Nat) (hv : validDate y m d = true) :
    parse_date (renderIso (y, m, d)) = some (renderIso (y, m, d)) := by
  have hy2 : y ≤ 9999 := (of_decide_eq_true hv).2.1
  show parse_date (String.mk (pad4 y ++ '-' :: pad2 m ++ '-' :: pad2 d)) =
    some (String.mk (pad4 y ++ '-' :: pad2 m ++ '-' :: pad2 d))
  simp only [parse_date]
  rw [pyStrip_render y m d hy2, tryYMD_render y m d hv]
  rfl

theorem bind_checkValid_valid {o : Option (Nat × Nat × Nat)} {t : Nat × Nat × Nat}
    (h : o.bind checkValid = some t) : validDate t.1 t.2.1 t.2.2 = true := by
  cases o with
  | none => exact absurd h (by simp)
  | some u =>
    by_cases hv : validDate u.1 u.2.1 u.2.2 = true
    · simp [checkValid, hv] at h
      subst h
      exact hv
    · simp [checkValid, hv] at h

theorem tryYMD_valid {sep : Char} {cs : List Char} {t : Nat × Nat × Nat}
    (h : tryYMD sep cs = some t) : validDate t.1 t.2.1 t.2.2 = true :=
  bind_checkValid_valid h

theorem tryDMY_valid {sep : Char} {cs : List Char} {t : Nat × Nat × Nat}
    (h : tryDMY sep cs = some t) : validDate t.1 t.2.1 t.2.2 = true :=
  bind_checkValid_valid h

theorem parse_date_shape {s r : String} (h : parse_date s = some r) :
    ∃ y m d, validDate y m d = true ∧ r = renderIso (y, m, d) := by
  simp only [parse_date] at h
  cases h1 : tryYMD '-' (pyStripL s.data) with
  | some t =>
    rw [h1] at h
    exact ⟨t.1, t.2.1, t.2.2, tryYMD_valid h1, (Option.some.inj h).symm⟩
  | none =>
    rw [h1] at h
    cases h2 : tryDMY '.' (pyStripL s.data) with
    | some t =>
      rw [h2] at h
      exact ⟨t.1, t.2.1, t.2.2, tryDMY_valid h2, (Option.some.inj h).symm⟩
    | none =>
      rw [h2] at h
      cases h3 : tryDMY '/' (pyStripL s.data) with
      | some t =>
        rw [h3] at h
        exact ⟨t.1, t.2.1, t.2.2, tryDMY_valid h3, (Option.some.inj h).symm⟩
      | none =>
        rw [h3] at h
        cases h4 : tryDMY '-' (pyStripL s.data) with
        | some t =>
          rw [h4] at h
          exact ⟨t.1, t.2.1, t.2.2, tryDMY_valid h4, (Option.some.inj h).symm⟩
        | none => rw [h4] at h; exact absurd h (by simp)

/-- C5: `parse_date` tries exactly the four patterns `YYYY-MM-DD`,
`DD.MM.YYYY`, `DD/MM/YYYY`, `DD-MM-YYYY` against the (stripped) input in
that fixed priority order, the first pattern that parses into a valid
calendar date wins and is returned in canonical `YYYY-MM-DD` form, and
all-patterns failure or a non-real calendar date yields the `NotADate`
signal (`none`) — including the spec's scenario inputs. -/
theorem normalize_date_contract : ∀ s : String,
    parse_date s = normalize_date_first_match s ∧
    (∀ r, parse_date s = some r →
      ∃ y m d, validDate y m d = true ∧ r = renderIso (y, m, d)) ∧
    parse_date ("2024-03-05") = some ("2024-03-05") ∧
    parse_date ("05.03.2024") = some ("2024-03-05") ∧
    parse_date ("05/03/2024") = some ("2024-03-05") ∧
    parse_date ("05-03-2024") = some ("2024-03-05") ∧
    parse_date ("31.02.2024") = none := by
  intro s
  refine ⟨?_, fun r h => parse_date_shape h, by decide, by decide, by decide, by decide,
    by decide⟩
  cases h1 : tryYMD '-' (pyStripL s.data) with
  | some t => simp [parse_date, normalize_date_first_match, List.findSome?, h1]
  | none =>
    cases h2 : tryDMY '.' (pyStripL s.data) with
    | some t => simp [parse_date, normalize_date_first_match, List.findSome?, h1, h2]
    | none =>
      cases h3 : tryDMY '/' (pyStripL s.data) with
      | some t => simp [parse_date, normalize_date_first_match, List.findSome?, h1, h2, h3]
      | none =>
        cases h4 : tryDMY '-' (pyStripL s.data) with
        | some t =>
          simp [parse_date, normalize_date_first_match, List.findSome?, h1, h2, h3, h4]
        | none =>
          simp [parse_date, normalize_date_first_match, List.findSome?, h1, h2, h3, h4]

theorem normalize_date_contract_witness :
    parse_date ("05.03.2024") = some ("2024-03-05") ∧
    ∃ y m d, validDate y m d = true ∧ ("2024-03-05" : String) = renderIso (y, m, d) := by
  have h := normalize_date_contract ("05.03.2024")
  exact ⟨h.2.2.2.1, h.2.1 ("2024-03-05") h.2.2.2.1⟩

/-- C7: date normalization is idempotent on its own canonical output —
whenever `parse_date` succeeds, running it again on the returned
`YYYY-MM-DD` string returns that same string. -/
theorem parse_date_idempotent : ∀ s r : String,
    parse_date s = some r → parse_date r = some r := by
  intro s r h
  obtain ⟨y, m, d, hv, rfl⟩ := parse_date_shape h
  exact parse_date_render y m d hv

theorem parse_date_idempotent_witness :
    parse_date ("2024-03-05") = some ("2024-03-05") :=
  parse_date_idempotent ("05.03.2024") ("2024-03-05") (by decide)
